import Mathlib

/-!
Verification of the Meihua divination LINE bot (`src/app.py`).

The development shallowly embeds the algorithmic core of the program:
the seed-derivation functions `num_to_gua` and `num_to_yao`, the
changed-trigram computation `get_bian_gua`, the two derivation
strategies `qigua_by_number` and `qigua_by_time`, the static tables
`BAGUA_NUM` and `HEXAGRAM_TABLE`, the result formatter
`format_gua_result`, the interpretation retriever
`get_ai_interpretation` with its retry loop, and the command handler
`process_number_divination`.

Modelling conventions:
* Python integers are `Int`; Python `%` with a positive modulus agrees
  with Lean's Euclidean `%` on `Int` (result in `[0, m)` for any sign
  of the dividend), and Python `//` is `Int.fdiv`.
* Python dictionary lookups that can raise `KeyError` are modelled with
  `Option`: `none` means an uncaught exception.
* The external Gemini call (`genai.generate` plus response-field
  extraction) is an oracle parameter `callG : Nat → Option String`
  indexed by the attempt number: `none` models a raised exception and
  `some ""` an empty payload (which the source turns into a raised
  `RuntimeError` inside the `try` block).  `time.sleep` has no
  observable effect and is elided.
* The module-level flag `USE_GEMINI` is a `Bool` parameter.
-/

/-- Translation of `num_to_gua`: `num % 8`, remapping residue `0` to `8`
(the temporary `remainder` of the source is inlined). -/
def num_to_gua (num : Int) : Int :=
  if num % 8 = 0 then 8 else num % 8

/-- Translation of `num_to_yao`: `num % 6`, remapping residue `0` to `6`. -/
def num_to_yao (num : Int) : Int :=
  if num % 6 = 0 then 6 else num % 6

/-- The `gua_binary` dictionary local to `get_bian_gua`: the 3-bit line
pattern of each trigram index; `none` models a `KeyError`. -/
def gua_binary (g : Int) : Option (List Int) :=
  if g = 1 then some [1, 1, 1]
  else if g = 2 then some [0, 1, 1]
  else if g = 3 then some [1, 0, 1]
  else if g = 4 then some [0, 0, 1]
  else if g = 5 then some [1, 1, 0]
  else if g = 6 then some [0, 1, 0]
  else if g = 7 then some [1, 0, 0]
  else if g = 8 then some [0, 0, 0]
  else none

/-- The `binary_to_gua` dictionary local to `get_bian_gua`: inverse of
`gua_binary`; `none` models a `KeyError` on a pattern outside the table. -/
def binary_to_gua (b : List Int) : Option Int :=
  if b = [1, 1, 1] then some 1
  else if b = [0, 1, 1] then some 2
  else if b = [1, 0, 1] then some 3
  else if b = [0, 0, 1] then some 4
  else if b = [1, 1, 0] then some 5
  else if b = [0, 1, 0] then some 6
  else if b = [1, 0, 0] then some 7
  else if b = [0, 0, 0] then some 8
  else none

/-- Translation of `get_bian_gua`: look up the 3-bit pattern of
`gua_num`, flip the bit at index `(yao_position - 1) % 3`, and look the
flipped pattern back up.  The list read `binary.get?` mirrors the Python
indexed read `binary[yao_index]` (an out-of-range index would raise). -/
def get_bian_gua (gua_num yao_position : Int) : Option Int :=
  match gua_binary gua_num with
  | none => none
  | some binary =>
    let yao_index := ((yao_position - 1) % 3).toNat
    match binary.get? yao_index with
    | none => none
    | some bit => binary_to_gua (binary.set yao_index (1 - bit))

/-- The result record built by `qigua_by_number` / `qigua_by_time`
(the display-only `time_info` / `random_nums` metadata keys are not part
of the derivation and are omitted). -/
structure GuaData where
  upper : Int
  lower : Int
  yao : Int
  bian_upper : Int
  bian_lower : Int
deriving Repr, DecidableEq

/-- The shared tail of `qigua_by_number` and `qigua_by_time` (the two
functions repeat this block verbatim in the source): the moving line
falls in the lower trigram when `yao <= 3`, otherwise in the upper
trigram with position `yao - 3`. -/
def qigua_core (upper_gua lower_gua yao : Int) : Option GuaData :=
  if yao ≤ 3 then
    match get_bian_gua lower_gua yao with
    | some bian_lower => some ⟨upper_gua, lower_gua, yao, upper_gua, bian_lower⟩
    | none => none
  else
    match get_bian_gua upper_gua (yao - 3) with
    | some bian_upper => some ⟨upper_gua, lower_gua, yao, bian_upper, lower_gua⟩
    | none => none

/-- Translation of `qigua_by_number`. -/
def qigua_by_number (num1 num2 : Int) : Option GuaData :=
  qigua_core (num_to_gua num1) (num_to_gua num2) (num_to_yao (num1 + num2))

/-- The calendar fields of the `datetime` consumed by `qigua_by_time`. -/
structure PyDateTime where
  year : Int
  month : Int
  day : Int
  hour : Int
deriving Repr, DecidableEq

/-- The `upper_num` of `qigua_by_time`: `year + month + day`. -/
def time_seed1 (now : PyDateTime) : Int :=
  now.year + now.month + now.day

/-- The `hour_num` of `qigua_by_time`: `((hour + 1) // 2) % 12`, with
residue `0` remapped to `12` (Python `//` is floor division, `Int.fdiv`). -/
def time_hour_num (now : PyDateTime) : Int :=
  let h := (Int.fdiv (now.hour + 1) 2) % 12
  if h = 0 then 12 else h

/-- The `lower_num` of `qigua_by_time`: `upper_num + hour_num`. -/
def time_seed2 (now : PyDateTime) : Int :=
  time_seed1 now + time_hour_num now

/-- Translation of `qigua_by_time`: `upper = num_to_gua(upper_num)`,
`lower = num_to_gua(lower_num)`, and — as in the source —
`yao = num_to_yao(lower_num)` (the moving line is taken from `lower_num`
alone, not from `upper_num + lower_num`).  The display-only `time_info`
string of the source's result dict is omitted. -/
def qigua_by_time (now : PyDateTime) : Option GuaData :=
  qigua_core (num_to_gua (time_seed1 now)) (num_to_gua (time_seed2 now))
    (num_to_yao (time_seed2 now))

/-- Line pattern of a trigram as a total function, used only to *state*
properties about trigram indices already known to lie in `[1,8]`
(where the default branch is unreachable). -/
def trigram_lines (g : Int) : List Int :=
  (gua_binary g).getD [0, 0, 0]

/-- The six-line figure of a hexagram: lower-trigram bits (lines 1–3)
followed by upper-trigram bits (lines 4–6). -/
def hex_lines (upper lower : Int) : List Int :=
  trigram_lines lower ++ trigram_lines upper

/-- Number of positions at which two line lists differ. -/
def num_diff (a b : List Int) : Nat :=
  (a.zip b).countP fun p => p.1 != p.2

/-- Boolean check behind claim C1 for a single result record: the
changed hexagram differs from the primary one in exactly one of the six
line positions, and the trigram not containing the moving line is
unchanged. -/
def c1good (g : GuaData) : Bool :=
  (num_diff (hex_lines g.upper g.lower) (hex_lines g.bian_upper g.bian_lower) == 1)
    && (if g.yao ≤ 3 then g.bian_upper == g.upper else g.bian_lower == g.lower)

/-- `c1good` lifted to the optional result: a failed derivation fails
the check. -/
def c1good_opt : Option GuaData → Bool
  | none => false
  | some g => c1good g

/-- Exhaustive check of `c1good_opt` over all trigram pairs in `[1,8]`
and moving lines in `[1,6]`. -/
def c1_table_check : Bool :=
  (List.range 8).all fun u0 =>
    (List.range 8).all fun l0 =>
      (List.range 6).all fun y0 =>
        c1good_opt (qigua_core ((u0 : Int) + 1) ((l0 : Int) + 1) ((y0 : Int) + 1))

/-- Exhaustive check that `get_bian_gua` succeeds with a result in
`[1,8]` for every trigram in `[1,8]` and position in `[1,3]`. -/
def bian_table_check : Bool :=
  (List.range 8).all fun g0 =>
    (List.range 3).all fun i0 =>
      match get_bian_gua ((g0 : Int) + 1) ((i0 : Int) + 1) with
      | some r => decide (1 ≤ r) && decide (r ≤ 8)
      | none => false

/-- Translation of the module-level `BAGUA_NUM` table (the Python field
`attribute` is named `attr` here). -/
structure Bagua where
  name : String
  symbol : String
  nature : String
  attr : String
  element : String
deriving Repr, DecidableEq

/-- Translation of `BAGUA_NUM`; `none` models a `KeyError`. -/
def BAGUA_NUM (n : Int) : Option Bagua :=
  if n = 1 then some ⟨"乾", "☰", "天", "剛健", "金"⟩
  else if n = 2 then some ⟨"兌", "☱", "澤", "喜悅", "金"⟩
  else if n = 3 then some ⟨"離", "☲", "火", "光明", "火"⟩
  else if n = 4 then some ⟨"震", "☳", "雷", "震動", "木"⟩
  else if n = 5 then some ⟨"巽", "☴", "風", "順入", "木"⟩
  else if n = 6 then some ⟨"坎", "☵", "水", "陷險", "水"⟩
  else if n = 7 then some ⟨"艮", "☶", "山", "止靜", "土"⟩
  else if n = 8 then some ⟨"坤", "☷", "地", "順承", "土"⟩
  else none

/-- Translation of the module-level `HEXAGRAM_TABLE` dictionary, kept as
an association list in source order so that key multiplicity can be
stated. -/
def HEXAGRAM_TABLE : List ((Int × Int) × String) :=
  [((1,1), "乾為天"), ((1,2), "天澤履"), ((1,3), "天火同人"), ((1,4), "天雷無妄"),
   ((1,5), "天風姤"), ((1,6), "天水訟"), ((1,7), "天山遯"), ((1,8), "天地否"),
   ((2,1), "澤天夬"), ((2,2), "兌為澤"), ((2,3), "澤火革"), ((2,4), "澤雷隨"),
   ((2,5), "澤風大過"), ((2,6), "澤水困"), ((2,7), "澤山咸"), ((2,8), "澤地萃"),
   ((3,1), "火天大有"), ((3,2), "火澤睽"), ((3,3), "離為火"), ((3,4), "火雷噬嗑"),
   ((3,5), "火風鼎"), ((3,6), "火水未濟"), ((3,7), "火山旅"), ((3,8), "火地晉"),
   ((4,1), "雷天大壯"), ((4,2), "雷澤歸妹"), ((4,3), "雷火豐"), ((4,4), "震為雷"),
   ((4,5), "雷風恆"), ((4,6), "雷水解"), ((4,7), "雷山小過"), ((4,8), "雷地豫"),
   ((5,1), "風天小畜"), ((5,2), "風澤中孚"), ((5,3), "風火家人"), ((5,4), "風雷益"),
   ((5,5), "巽為風"), ((5,6), "風水渙"), ((5,7), "風山漸"), ((5,8), "風地觀"),
   ((6,1), "水天需"), ((6,2), "水澤節"), ((6,3), "水火既濟"), ((6,4), "水雷屯"),
   ((6,5), "水風井"), ((6,6), "坎為水"), ((6,7), "水山蹇"), ((6,8), "水地比"),
   ((7,1), "山天大畜"), ((7,2), "山澤損"), ((7,3), "山火賁"), ((7,4), "山雷頤"),
   ((7,5), "山風蠱"), ((7,6), "山水蒙"), ((7,7), "艮為山"), ((7,8), "山地剝"),
   ((8,1), "地天泰"), ((8,2), "地澤臨"), ((8,3), "地火明夷"), ((8,4), "地雷復"),
   ((8,5), "地風升"), ((8,6), "地水師"), ((8,7), "地山謙"), ((8,8), "坤為地")]

/-- The key enumeration of `HEXAGRAM_TABLE` in source order:
`(1,1), (1,2), …, (8,8)`. -/
def all_hexagram_keys : List (Int × Int) :=
  (List.range 8).flatMap fun u =>
    (List.range 8).map fun l => (((u + 1 : Nat) : Int), ((l + 1 : Nat) : Int))

/-- `HEXAGRAM_TABLE.get(key, '未知卦')` of the formatter. -/
def hexagram_get (k : Int × Int) : String :=
  match HEXAGRAM_TABLE.lookup k with
  | some v => v
  | none => "未知卦"

/-- Translation of `format_gua_result`: the four `BAGUA_NUM` indexed
accesses can raise `KeyError` (`none`); the hexagram names use `.get`
with the `'未知卦'` default.  Returns the display block, the primary and
changed hexagram names, and the moving line, as in the source's 4-tuple. -/
def format_gua_result (gua_data : GuaData) : Option (String × String × String × Int) :=
  match BAGUA_NUM gua_data.upper, BAGUA_NUM gua_data.lower,
        BAGUA_NUM gua_data.bian_upper, BAGUA_NUM gua_data.bian_lower with
  | some upper, some lower, some bian_upper, some bian_lower =>
    let ben_gua := hexagram_get (gua_data.upper, gua_data.lower)
    let bian_gua := hexagram_get (gua_data.bian_upper, gua_data.bian_lower)
    let result :=
      "\n━━━━━━━━━━━━━━━━\n" ++
      "🔮 【梅花易數占卜結果】\n" ++
      "━━━━━━━━━━━━━━━━\n\n" ++
      "📌 本卦：" ++ ben_gua ++ "\n" ++
      "   上卦：" ++ upper.name ++ "卦 " ++ upper.symbol ++ "（" ++ upper.nature ++
        "・" ++ upper.attr ++ "・" ++ upper.element ++ "）\n" ++
      "   下卦：" ++ lower.name ++ "卦 " ++ lower.symbol ++ "（" ++ lower.nature ++
        "・" ++ lower.attr ++ "・" ++ lower.element ++ "）\n\n" ++
      "📌 動爻：第 " ++ toString gua_data.yao ++ " 爻\n\n" ++
      "📌 變卦：" ++ bian_gua ++ "\n" ++
      "   上卦：" ++ bian_upper.name ++ "卦 " ++ bian_upper.symbol ++ "\n" ++
      "   下卦：" ++ bian_lower.name ++ "卦 " ++ bian_lower.symbol ++ "\n\n" ++
      "━━━━━━━━━━━━━━━━\n"
    some (result, ben_gua, bian_gua, gua_data.yao)
  | _, _, _, _ => none

/-- Translation of `simple_local_interpretation`.  The `user_question`
argument is accepted, as in the source, but never read. -/
def simple_local_interpretation (ben_gua bian_gua : String) (yao : Int)
    (user_question : String) : String :=
  "【（系統備援）易學初步解讀】\n\n" ++
  "卦象總論：本卦「" ++ ben_gua ++ "」變為「" ++ bian_gua ++
    "」，代表事物正處於變動與調整階段，宜以穩健為主。\n\n" ++
  "本卦解析：" ++ ben_gua ++ " 多與人事、方向相關，需注意溝通與步驟的完整性。\n\n" ++
  "動爻啟示：第 " ++ toString yao ++ " 爻顯示變化焦點在於細節處理與時機把握。\n\n" ++
  "變卦展望：若能耐心修正，事態將逐步轉為穩定；若忽視細節，易遭小障礙影響。\n\n" ++
  "具體建議：檢視優先順序、做好溝通、避免衝動決策。若與人相關事務，先詢問對方意見再行動。\n\n" ++
  "吉凶判斷：屬中性偏吉，宜守不宜攻。\n"

/-- The disclaimer appended when `USE_GEMINI` is false. -/
def local_note : String :=
  "\n\n⚠️ 提示：目前使用本地備援解讀，若需更深入解析請設定 GEMINI_API_KEY。"

/-- The disclaimer appended after the retry budget is exhausted. -/
def degraded_note : String :=
  "\n\n⚠️ 提示：AI 解讀服務暫時繁忙或金鑰/配額問題，已使用本地備援回覆。請稍後檢查 GEMINI_API_KEY 或 API 配額。"

/-- Outcome of one `try` body of the retry loop: a raised exception
(`none` from the oracle) or an empty payload (`some ""`, which the
source turns into a raised `RuntimeError` via `if not text: raise`)
both land in the `except` handler; otherwise the text is returned. -/
def parse_ok (r : Option String) : Option String :=
  match r with
  | some t => if t = "" then none else some t
  | none => none

/-- The `for attempt in range(1, max_attempts + 1)` retry loop, as
structural recursion over the list of attempt numbers.  On the last
attempt a failure returns the fallback text (the `else` branch of the
source); the result is paired with the number of external calls made.
The `[]` case is unreachable for the non-empty attempt list used below. -/
def gemini_loop (callG : Nat → Option String) (fb : String) : List Nat → String × Nat
  | [] => (fb, 0)
  | [a] =>
    match parse_ok (callG a) with
    | some t => (t, a)
    | none => (fb, a)
  | a :: b :: rest =>
    match parse_ok (callG a) with
    | some t => (t, a)
    | none => gemini_loop callG fb (b :: rest)

/-- Translation of `get_ai_interpretation`, parameterised by the
`USE_GEMINI` flag and the external-call oracle.  `max_attempts = 3`
gives the attempt list `[1, 2, 3]`.  The second component counts the
external calls performed (0 when the flag is off). -/
def get_ai_interpretation (useGemini : Bool) (callG : Nat → Option String)
    (ben_gua bian_gua : String) (yao : Int) (user_question : String) : String × Nat :=
  if useGemini = false then
    (simple_local_interpretation ben_gua bian_gua yao user_question ++ local_note, 0)
  else
    gemini_loop callG
      (simple_local_interpretation ben_gua bian_gua yao user_question ++ degraded_note)
      [1, 2, 3]

/-- Kernel-computable model of Python `str.replace(pat, '')` on
character lists: remove every non-overlapping occurrence of `pat`,
left to right.  The fuel argument (instantiated with the list length)
only bounds the recursion; each step consumes at least one character
for a non-empty pattern. -/
def remove_all_aux (pat : List Char) : Nat → List Char → List Char
  | _, [] => []
  | 0, s => s
  | fuel + 1, c :: rest =>
    if pat.isPrefixOf (c :: rest) then remove_all_aux pat fuel (List.drop pat.length (c :: rest))
    else c :: remove_all_aux pat fuel rest

/-- `message.replace('數字占卜', '')` on character lists. -/
def remove_keyword (s : List Char) : List Char :=
  remove_all_aux "數字占卜".data s.length s

/-- Model of Python `.strip().split()`: split on runs of whitespace and
drop empty tokens (`split()` with no argument already ignores leading
and trailing whitespace, so the preceding `.strip()` adds nothing). -/
def py_tokens_aux : List Char → List Char → List (List Char)
  | [], cur => if cur.isEmpty then [] else [cur.reverse]
  | c :: rest, cur =>
    if c.isWhitespace then
      if cur.isEmpty then py_tokens_aux rest []
      else cur.reverse :: py_tokens_aux rest []
    else py_tokens_aux rest (c :: cur)

/-- Whitespace tokenisation of a character list. -/
def py_tokens (s : List Char) : List (List Char) :=
  py_tokens_aux s []

/-- The `parts` of `process_number_divination`:
`message.replace('數字占卜', '').strip().split()`. -/
def number_tokens (message : String) : List (List Char) :=
  py_tokens (remove_keyword message.data)

/-- Numeric value of a digit list. -/
def digits_val (l : List Char) : Nat :=
  l.foldl (fun a c => a * 10 + (c.toNat - 48)) 0

/-- Model of Python `int(token)` on a whitespace-free token: an optional
sign followed by one or more decimal digits; anything else raises
`ValueError` (`none`).  (Python additionally accepts underscore digit
separators and non-ASCII digits; the claims do not depend on those.) -/
def py_int (s : List Char) : Option Int :=
  match s with
  | [] => none
  | '-' :: rest =>
    if !rest.isEmpty && rest.all Char.isDigit then some (-(digits_val rest : Int)) else none
  | '+' :: rest =>
    if !rest.isEmpty && rest.all Char.isDigit then some (digits_val rest : Int) else none
  | _ =>
    if s.all Char.isDigit then some (digits_val s : Int) else none

/-- The format-error reply for fewer than two tokens. -/
def number_format_error : String :=
  "⚠️ 數字占卜格式：\n數字占卜 [數字1] [數字2]\n\n例如：數字占卜 168 888"

/-- The `ValueError` reply for non-integer tokens. -/
def number_value_error : String :=
  "⚠️ 請輸入有效的數字。\n\n格式：數字占卜 [數字1] [數字2]"

/-- Translation of `process_number_divination`, parameterised like
`get_ai_interpretation` by the `USE_GEMINI` flag and the call oracle.
`none` models an exception that escapes the function (the `try` block
only catches `ValueError`, which the `int` conversions are the source
of; a `KeyError` from the derivation or formatter would propagate). -/
def process_number_divination (useGemini : Bool) (callG : Nat → Option String)
    (message : String) : Option String :=
  let parts := number_tokens message
  if parts.length < 2 then
    some number_format_error
  else
    match py_int (parts.getD 0 []), py_int (parts.getD 1 []) with
    | some num1, some num2 =>
      let question :=
        if parts.length > 2 then String.intercalate " " ((parts.drop 2).map List.asString)
        else "請解讀此卦象"
      match qigua_by_number num1 num2 with
      | some gua_data =>
        let method_info := "🔢 您的數字：" ++ toString num1 ++ ", " ++ toString num2
        match format_gua_result gua_data with
        | some (gua_result, ben_gua, bian_gua, yao) =>
          let ai := (get_ai_interpretation useGemini callG ben_gua bian_gua yao question).1
          some ("📝 您的問題：" ++ question ++ "\n" ++ method_info ++ "\n" ++ gua_result ++
            "\n🌟【易學大師解讀】\n" ++ ai)
        | none => none
      | none => none
    | _, _ => some number_value_error

/-! ## Helper lemmas -/

/-- `num_to_gua` always lands in `[1,8]`. -/
lemma num_to_gua_bounds (n : Int) : 1 ≤ num_to_gua n ∧ num_to_gua n ≤ 8 := by
  unfold num_to_gua
  split_ifs <;> omega

/-- `num_to_yao` always lands in `[1,6]`. -/
lemma num_to_yao_bounds (n : Int) : 1 ≤ num_to_yao n ∧ num_to_yao n ≤ 6 := by
  unfold num_to_yao
  split_ifs <;> omega

/-- `get_bian_gua` only consults `yao_position` through `(yao_position - 1) % 3`,
so the position can be normalised into `[1,3]`. -/
lemma get_bian_gua_shift (g y : Int) :
    get_bian_gua g y = get_bian_gua g (1 + (y - 1) % 3) := by
  have h : (1 + (y - 1) % 3 - 1) % 3 = (y - 1) % 3 := by omega
  unfold get_bian_gua
  rw [h]

/-- Totality of `get_bian_gua` for trigram indices in `[1,8]` and an
arbitrary integer position. -/
lemma get_bian_gua_total (g y : Int) (h1 : 1 ≤ g) (h2 : g ≤ 8) :
    ∃ r, get_bian_gua g y = some r ∧ 1 ≤ r ∧ r ≤ 8 := by
  rw [get_bian_gua_shift]
  set y' := 1 + (y - 1) % 3 with hy'
  have hy1 : 1 ≤ y' := by omega
  have hy3 : y' ≤ 3 := by omega
  have htab : bian_table_check = true := by decide
  unfold bian_table_check at htab
  simp only [List.all_eq_true, List.mem_range] at htab
  have step := htab ((g - 1).toNat) (by omega) ((y' - 1).toNat) (by omega)
  have eg : ((g - 1).toNat : Int) + 1 = g := by omega
  have ey : ((y' - 1).toNat : Int) + 1 = y' := by omega
  rw [eg, ey] at step
  revert step
  cases hr : get_bian_gua g y' with
  | none => intro h; simp at h
  | some r =>
    intro h
    simp only [Bool.and_eq_true, decide_eq_true_eq] at h
    exact ⟨r, rfl, h.1, h.2⟩

/-- For valid trigram indices, `qigua_core` succeeds and copies its
three arguments into the result record. -/
lemma qigua_core_some (u l y : Int) (hu1 : 1 ≤ u) (hu2 : u ≤ 8)
    (hl1 : 1 ≤ l) (hl2 : l ≤ 8) :
    ∃ g, qigua_core u l y = some g ∧ g.upper = u ∧ g.lower = l ∧ g.yao = y := by
  by_cases hy : y ≤ 3
  · obtain ⟨r, hr, -, -⟩ := get_bian_gua_total l y hl1 hl2
    exact ⟨⟨u, l, y, u, r⟩, by simp [qigua_core, hy, hr], rfl, rfl, rfl⟩
  · obtain ⟨r, hr, -, -⟩ := get_bian_gua_total u (y - 3) hu1 hu2
    exact ⟨⟨u, l, y, r, l⟩, by simp [qigua_core, hy, hr], rfl, rfl, rfl⟩

/-- The exhaustive table check holds on all valid trigram/line inputs. -/
lemma qigua_core_good (u l y : Int) (hu1 : 1 ≤ u) (hu2 : u ≤ 8)
    (hl1 : 1 ≤ l) (hl2 : l ≤ 8) (hy1 : 1 ≤ y) (hy2 : y ≤ 6) :
    c1good_opt (qigua_core u l y) = true := by
  have htab : c1_table_check = true := by decide
  unfold c1_table_check at htab
  simp only [List.all_eq_true, List.mem_range] at htab
  have step := htab ((u - 1).toNat) (by omega) ((l - 1).toNat) (by omega)
    ((y - 1).toNat) (by omega)
  have eu : ((u - 1).toNat : Int) + 1 = u := by omega
  have el : ((l - 1).toNat : Int) + 1 = l := by omega
  have ey : ((y - 1).toNat : Int) + 1 = y := by omega
  rw [eu, el, ey] at step
  exact step

/-- Unpacking of a successful `c1good_opt` check into the propositional
form of the one-changed-line invariant. -/
lemma c1good_opt_spec (o : Option GuaData) (h : c1good_opt o = true) :
    ∃ g, o = some g ∧
      num_diff (hex_lines g.upper g.lower) (hex_lines g.bian_upper g.bian_lower) = 1 ∧
      (if g.yao ≤ 3 then g.bian_upper = g.upper else g.bian_lower = g.lower) := by
  cases o with
  | none => simp [c1good_opt] at h
  | some g =>
    simp only [c1good_opt, c1good, Bool.and_eq_true, beq_iff_eq] at h
    obtain ⟨hd, hi⟩ := h
    refine ⟨g, rfl, hd, ?_⟩
    by_cases hy : g.yao ≤ 3
    · simpa [hy] using hi
    · simpa [hy] using hi

/-- A list is an infix of itself followed by anything. -/
lemma infix_here {α : Type} (m r : List α) : m <:+: m ++ r :=
  (List.prefix_append m r).isInfix

/-- An infix of `r` is an infix of `l ++ r`. -/
lemma infix_right {α : Type} {m r : List α} (l : List α) (h : m <:+: r) :
    m <:+: l ++ r :=
  h.trans (List.suffix_append l r).isInfix

/-! ## Claim theorems -/

/-- C1: for every pair of integer seeds, `qigua_by_number` succeeds and
its changed hexagram differs from the primary hexagram in exactly one of
the six line positions (lower-trigram lines 1–3, upper-trigram lines
4–6), and the trigram not containing the moving line is returned
unchanged. -/
theorem qigua_by_number_changes_one_line (num1 num2 : Int) :
    ∃ g, qigua_by_number num1 num2 = some g ∧
      num_diff (hex_lines g.upper g.lower) (hex_lines g.bian_upper g.bian_lower) = 1 ∧
      (if g.yao ≤ 3 then g.bian_upper = g.upper else g.bian_lower = g.lower) := by
  have hu := num_to_gua_bounds num1
  have hl := num_to_gua_bounds num2
  have hy := num_to_yao_bounds (num1 + num2)
  exact c1good_opt_spec _
    (qigua_core_good _ _ _ hu.1 hu.2 hl.1 hl.2 hy.1 hy.2)

/-- C2 (counterexample): at year 2024, month 1, day 1, hour 0 the code's
temporal strategy produces moving line 4, whereas
`movingLineFromSeed(seed1 + seed2)` would give 2 — the produced moving
line does not equal `num_to_yao (seed1 + seed2)`. -/
theorem qigua_by_time_moving_line_counterexample :
    qigua_by_time ⟨2024, 1, 1, 0⟩ = some ⟨2, 6, 4, 1, 6⟩ ∧
    time_seed1 ⟨2024, 1, 1, 0⟩ = 2026 ∧
    time_seed2 ⟨2024, 1, 1, 0⟩ = 2038 ∧
    num_to_yao (time_seed1 ⟨2024, 1, 1, 0⟩ + time_seed2 ⟨2024, 1, 1, 0⟩) = 2 ∧
    (qigua_by_time ⟨2024, 1, 1, 0⟩).map GuaData.yao ≠
      some (num_to_yao (time_seed1 ⟨2024, 1, 1, 0⟩ + time_seed2 ⟨2024, 1, 1, 0⟩)) := by
  decide

/-- C2 (amended): for the temporal strategy with
`seed1 = year + month + day` and `seed2 = seed1 + doubleHourIndex`, the
moving line of the produced result equals `movingLineFromSeed(seed2)`
(not `movingLineFromSeed(seed1 + seed2)`); the trigrams come from
`seed1` (upper) and `seed2` (lower). -/
theorem qigua_by_time_moving_line_from_seed2 (now : PyDateTime) :
    ∃ g, qigua_by_time now = some g ∧
      g.upper = num_to_gua (time_seed1 now) ∧
      g.lower = num_to_gua (time_seed2 now) ∧
      g.yao = num_to_yao (time_seed2 now) := by
  have hu := num_to_gua_bounds (time_seed1 now)
  have hl := num_to_gua_bounds (time_seed2 now)
  exact qigua_core_some _ _ (num_to_yao (time_seed2 now)) hu.1 hu.2 hl.1 hl.2

/-- C3: for every integer `n` (with the Euclidean modulo that matches
the source language's semantics), `num_to_gua n ∈ [1,8]` with period 8
and residue 0 remapped to 8, and `num_to_yao n ∈ [1,6]` with period 6
and residue 0 remapped to 6. -/
theorem seed_derivation_range_and_period (n : Int) :
    (1 ≤ num_to_gua n ∧ num_to_gua n ≤ 8 ∧ num_to_gua (n + 8) = num_to_gua n ∧
      num_to_gua n = if n % 8 = 0 then 8 else n % 8) ∧
    (1 ≤ num_to_yao n ∧ num_to_yao n ≤ 6 ∧ num_to_yao (n + 6) = num_to_yao n ∧
      num_to_yao n = if n % 6 = 0 then 6 else n % 6) := by
  unfold num_to_gua num_to_yao
  refine ⟨⟨?_, ?_, ?_, ?_⟩, ⟨?_, ?_, ?_, ?_⟩⟩ <;> split_ifs <;> omega

/-- C4: with no Gemini credential configured (`USE_GEMINI` false),
`get_ai_interpretation` performs zero external calls for every oracle
and request, and returns the deterministic local fallback with the
appended disclaimer. -/
theorem get_ai_interpretation_disabled (callG : Nat → Option String)
    (ben_gua bian_gua : String) (yao : Int) (q : String) :
    get_ai_interpretation false callG ben_gua bian_gua yao q =
      (simple_local_interpretation ben_gua bian_gua yao q ++ local_note, 0) :=
  rfl

/-- C5: if each of the three external calls fails (raises, or yields an
empty payload), `get_ai_interpretation` makes exactly 3 attempts and
returns the local fallback narrative with the degraded-mode disclaimer
appended; the disclaimer substring `本地備援` is visible in the output. -/
theorem get_ai_interpretation_exhausts_three_attempts (callG : Nat → Option String)
    (ben_gua bian_gua : String) (yao : Int) (q : String)
    (h1 : callG 1 = none ∨ callG 1 = some "")
    (h2 : callG 2 = none ∨ callG 2 = some "")
    (h3 : callG 3 = none ∨ callG 3 = some "") :
    get_ai_interpretation true callG ben_gua bian_gua yao q =
      (simple_local_interpretation ben_gua bian_gua yao q ++ degraded_note, 3) ∧
    "本地備援".data <:+: (get_ai_interpretation true callG ben_gua bian_gua yao q).1.data := by
  have e1 : parse_ok (callG 1) = none := by rcases h1 with h | h <;> simp [parse_ok, h]
  have e2 : parse_ok (callG 2) = none := by rcases h2 with h | h <;> simp [parse_ok, h]
  have e3 : parse_ok (callG 3) = none := by rcases h3 with h | h <;> simp [parse_ok, h]
  have he : get_ai_interpretation true callG ben_gua bian_gua yao q =
      (simple_local_interpretation ben_gua bian_gua yao q ++ degraded_note, 3) := by
    simp [get_ai_interpretation, gemini_loop, e1, e2, e3]
  refine ⟨he, ?_⟩
  rw [he]
  show "本地備援".data <:+:
    (simple_local_interpretation ben_gua bian_gua yao q ++ degraded_note).data
  rw [String.data_append]
  exact infix_right _ (by decide)

/-- Witness for C5 at a concrete always-raising oracle. -/
theorem get_ai_interpretation_exhausts_three_attempts_witness :
    ((fun _ : Nat => (none : Option String)) 1 = none ∨
      (fun _ : Nat => (none : Option String)) 1 = some "") ∧
    (get_ai_interpretation true (fun _ => none) "乾為天" "天風姤" 1 "工作" =
      (simple_local_interpretation "乾為天" "天風姤" 1 "工作" ++ degraded_note, 3) ∧
     "本地備援".data <:+:
      (get_ai_interpretation true (fun _ => none) "乾為天" "天風姤" 1 "工作").1.data) :=
  ⟨Or.inl rfl,
    get_ai_interpretation_exhausts_three_attempts (fun _ => none) "乾為天" "天風姤" 1 "工作"
      (Or.inl rfl) (Or.inl rfl) (Or.inl rfl)⟩

/-- C6: a `數字占卜` message with fewer than two whitespace-separated
tokens after the keyword yields the format-error instruction (for every
oracle, so neither derivation nor the external call can influence it),
and a message whose first or second token is not an integer yields the
value-error instruction instead of an exception. -/
theorem process_number_divination_input_errors (useGemini : Bool)
    (callG : Nat → Option String) (message : String) :
    ((number_tokens message).length < 2 →
      process_number_divination useGemini callG message = some number_format_error) ∧
    (2 ≤ (number_tokens message).length →
      (py_int ((number_tokens message).getD 0 []) = none ∨
        py_int ((number_tokens message).getD 1 []) = none) →
      process_number_divination useGemini callG message = some number_value_error) := by
  constructor
  · intro h
    simp [process_number_divination, h]
  · intro h hp
    have hlt : ¬ (number_tokens message).length < 2 := by omega
    simp only [List.getD_eq_getElem?_getD] at hp
    rcases hp with hp | hp
    · simp [process_number_divination, hlt, hp]
    · cases hq : py_int ((number_tokens message)[0]?.getD []) <;>
        simp [process_number_divination, hlt, hp, hq]

/-- Witness for C6: a one-token message hits the format error and a
non-integer first token hits the value error. -/
theorem process_number_divination_input_errors_witness :
    (number_tokens "數字占卜 168").length < 2 ∧
    process_number_divination true (fun _ => none) "數字占卜 168" =
      some number_format_error ∧
    2 ≤ (number_tokens "數字占卜 abc 12").length ∧
    py_int ((number_tokens "數字占卜 abc 12").getD 0 []) = none ∧
    process_number_divination true (fun _ => none) "數字占卜 abc 12" =
      some number_value_error :=
  ⟨by decide,
    (process_number_divination_input_errors true (fun _ => none) "數字占卜 168").1
      (by decide),
    by decide,
    by decide,
    (process_number_divination_input_errors true (fun _ => none) "數字占卜 abc 12").2
      (by decide) (Or.inl (by decide))⟩

/-- C7: for every trigram index in `[1,8]` and every integer line
position, `get_bian_gua` succeeds with a trigram index in `[1,8]`
(neither dictionary lookup can fail), and `binary_to_gua` covers all 8
possible 3-bit patterns. -/
theorem get_bian_gua_total_on_trigrams (gua_num : Int)
    (h1 : 1 ≤ gua_num) (h2 : gua_num ≤ 8) (yao_position : Int) :
    (∃ r, get_bian_gua gua_num yao_position = some r ∧ 1 ≤ r ∧ r ≤ 8) ∧
    (([[0,0,0], [0,0,1], [0,1,0], [0,1,1], [1,0,0], [1,0,1], [1,1,0], [1,1,1]] :
      List (List Int)).all fun b => (binary_to_gua b).isSome) = true :=
  ⟨get_bian_gua_total gua_num yao_position h1 h2, by decide⟩

/-- Witness for C7 at trigram 5 and the out-of-range position 100. -/
theorem get_bian_gua_total_on_trigrams_witness :
    (1 ≤ (5 : Int) ∧ (5 : Int) ≤ 8) ∧
    ((∃ r, get_bian_gua 5 100 = some r ∧ 1 ≤ r ∧ r ≤ 8) ∧
     (([[0,0,0], [0,0,1], [0,1,0], [0,1,1], [1,0,0], [1,0,1], [1,1,0], [1,1,1]] :
       List (List Int)).all fun b => (binary_to_gua b).isSome) = true) :=
  ⟨⟨by decide, by decide⟩, get_bian_gua_total_on_trigrams 5 (by decide) (by decide) 100⟩

/-- C8: `HEXAGRAM_TABLE` has exactly 64 entries, no duplicate keys, and
its key set is exactly all pairs of `[1,8] × [1,8]`. -/
theorem hexagram_table_covers_all_pairs :
    HEXAGRAM_TABLE.length = 64 ∧
    (HEXAGRAM_TABLE.map Prod.fst).Nodup ∧
    ∀ u l : Int, ((u, l) ∈ HEXAGRAM_TABLE.map Prod.fst ↔
      (1 ≤ u ∧ u ≤ 8 ∧ 1 ≤ l ∧ l ≤ 8)) := by
  refine ⟨by decide, by decide, ?_⟩
  intro u l
  have h : HEXAGRAM_TABLE.map Prod.fst = all_hexagram_keys := by decide
  rw [h]
  unfold all_hexagram_keys
  rw [List.mem_flatMap]
  constructor
  · rintro ⟨a, ha, hm⟩
    rw [List.mem_map] at hm
    obtain ⟨b, hb, hab⟩ := hm
    rw [List.mem_range] at ha hb
    rw [Prod.mk.injEq] at hab
    obtain ⟨hu, hl⟩ := hab
    omega
  · rintro ⟨hu1, hu2, hl1, hl2⟩
    refine ⟨(u - 1).toNat, List.mem_range.mpr (by omega), ?_⟩
    rw [List.mem_map]
    refine ⟨(l - 1).toNat, List.mem_range.mpr (by omega), ?_⟩
    rw [Prod.mk.injEq]
    constructor <;> omega

/-- C9: `qigua_by_number 1 1` yields upper 1, lower 1, moving line 2,
changed upper 1, changed lower 3. -/
theorem qigua_by_number_one_one :
    qigua_by_number 1 1 = some ⟨1, 1, 2, 1, 3⟩ := by
  decide

/-- C10: `simple_local_interpretation` ignores the user's question — it
returns the identical string for any two question values — and its
output embeds the primary hexagram name, the changed hexagram name, and
the moving line. -/
theorem simple_local_interpretation_question_independent
    (ben_gua bian_gua : String) (yao : Int) (q1 q2 : String) :
    simple_local_interpretation ben_gua bian_gua yao q1 =
      simple_local_interpretation ben_gua bian_gua yao q2 ∧
    ben_gua.data <:+: (simple_local_interpretation ben_gua bian_gua yao q1).data ∧
    bian_gua.data <:+: (simple_local_interpretation ben_gua bian_gua yao q1).data ∧
    (toString yao).data <:+: (simple_local_interpretation ben_gua bian_gua yao q1).data := by
  refine ⟨rfl, ?_, ?_, ?_⟩ <;>
    simp only [simple_local_interpretation, String.data_append, List.append_assoc] <;>
    repeat (first | exact infix_here _ _ | apply infix_right)
